import Mathlib

/-!
Shallow embedding of the NKFX health monitor (src/health_monitor.py).

Timestamps are modelled as natural numbers of seconds; the calendar date
of a timestamp is the number of whole days, mirroring the
`datetime.date()` comparison in the source. External collaborators
(the docker CLI, HTTP requests, the shell, the Telegram API) are modelled
as oracles supplied in environment records: each oracle yields the
outcome of the corresponding external call, including the exceptional
outcomes (timeout, connection error, arbitrary exception) that the
Python code catches. Exception flow in the Python functions is embedded
with the `Except` monad: the body of each `try` block is a computation
in `Except PyExn`, and the `except` clauses are the surrounding handler
that maps every error to a local result value.
-/

namespace NKFX

/-- Python exceptions relevant to the monitor: `subprocess.TimeoutExpired`
or any other exception, carrying its message. -/
inductive PyExn where
  | timeoutExpired
  | other (msg : String)
deriving Repr, DecidableEq

/-- Truthiness of an optional string, as Python evaluates
`service.get(key)` in a boolean position: absent and empty are falsy. -/
def truthy : Option String → Bool
  | none => false
  | some s => s ≠ ""

/-- Leading whitespace removed from a character list. -/
def stripDrop : List Char → List Char
  | [] => []
  | c :: cs => if c.isWhitespace then stripDrop cs else c :: cs

/-- Python str.strip: whitespace removed from both ends. -/
def pyStrip (s : String) : String :=
  ⟨(stripDrop (stripDrop s.data).reverse).reverse⟩

/-- Python slicing s[:n]: the first n characters. -/
def pyTake (s : String) (n : Nat) : String :=
  ⟨s.data.take n⟩

/-- Whether the second list starts with the first. -/
def startsWithL : List Char → List Char → Bool
  | [], _ => true
  | _ :: _, [] => false
  | a :: as, b :: bs => a = b && startsWithL as bs

/-- Whether `sub` occurs somewhere in `l`. -/
def containsAux (sub : List Char) : List Char → Bool
  | [] => startsWithL sub []
  | c :: cs => startsWithL sub (c :: cs) || containsAux sub cs

/-- Substring test: `sub` occurs in `s` (the Python idiom
`"Up" in status`). -/
def containsSub (s sub : String) : Bool :=
  containsAux sub.data s.data

/-- Calendar date of a timestamp in seconds: whole days since the epoch,
mirroring `datetime.date()` equality. -/
def dayOf (t : Nat) : Nat := t / 86400

/-- Outcome of one `subprocess.run` invocation of `docker ps`:
captured stdout, a timeout, or another exception. -/
inductive SubpOutcome where
  | ok (stdout : String)
  | timeoutExp
  | exn (msg : String)
deriving Repr, DecidableEq

/-- Oracle for `docker ps --filter name=VALUE --format Status`:
maps the filter value to the call outcome. -/
structure DockerEnv where
  ps : String → SubpOutcome

/-- Run one `docker ps` call inside the `try` block: exceptional
outcomes become `Except.error`. -/
def runPs (env : DockerEnv) (filter : String) : Except PyExn String :=
  match env.ps filter with
  | .ok out => .ok out
  | .timeoutExp => .error .timeoutExpired
  | .exn m => .error (.other m)

/-- Body of the `try` block of `check_docker_container`: exact-name
filter first, then the configured pattern, then the unanchored
search name (the pattern when truthy, else the name). -/
def check_docker_container_body (name : String) (pattern : Option String)
    (env : DockerEnv) : Except PyExn (Bool × String) := do
  let r1 ← runPs env ("^" ++ name ++ "$")
  let status1 := pyStrip r1
  let status2 ←
    if status1 = "" ∧ truthy pattern then do
      let r2 ← runPs env (pattern.getD "")
      pure (pyStrip r2)
    else pure status1
  let status3 ←
    if status2 = "" then do
      let r3 ← runPs env (if truthy pattern then pattern.getD "" else name)
      pure (pyStrip r3)
    else pure status2
  if status3 ≠ "" then
    if containsSub status3 "Up" then pure (true, status3)
    else pure (false, "Container exists but not running: " ++ status3)
  else pure (false, "Container not found")

/-- The `except` clauses of `check_docker_container`. -/
def docker_exn_msg : PyExn → String
  | .timeoutExpired => "Docker command timeout"
  | .other m => "Error: " ++ m

/-- `check_docker_container`: returns `(is_running, status_message)`,
with every exception of the body handled locally. -/
def check_docker_container (name : String) (pattern : Option String)
    (env : DockerEnv) : Bool × String :=
  match check_docker_container_body name pattern env with
  | .ok r => r
  | .error e => (false, docker_exn_msg e)

/-- Outcome of one `requests.get` call: a response with its status code,
a connection error, a timeout, or another exception. -/
inductive HttpOutcome where
  | resp (status_code : Nat)
  | connError
  | timeoutErr
  | exn (msg : String)
deriving Repr, DecidableEq

/-- Python exceptions raised by `requests.get`. -/
inductive HttpExn where
  | connError
  | timeoutErr
  | other (msg : String)
deriving Repr, DecidableEq

/-- The `requests.get` call inside the `try` block of
`check_health_endpoint`. -/
def http_get (o : HttpOutcome) : Except HttpExn Nat :=
  match o with
  | .resp c => .ok c
  | .connError => .error .connError
  | .timeoutErr => .error .timeoutErr
  | .exn m => .error (.other m)

/-- The `except` clauses of `check_health_endpoint`. -/
def http_exn_msg : HttpExn → String
  | .connError => "Connection refused"
  | .timeoutErr => "Request timeout"
  | .other m => "Error: " ++ m

/-- `check_health_endpoint`: healthy exactly on HTTP 200, every
exception handled locally with a distinct detail string. -/
def check_health_endpoint (o : HttpOutcome) : Bool × String :=
  match http_get o with
  | .ok code => if code = 200 then (true, "HTTP 200 OK") else (false, "HTTP " ++ toString code)
  | .error e => (false, http_exn_msg e)

/-- Result of one shell command (`docker compose up -d NAME` or the
legacy `docker-compose` form): return code and captured stderr. -/
structure CmdResult where
  returncode : Int
  stderr : String
deriving Repr, DecidableEq

/-- Outcome of one `subprocess.run` shell invocation in
`restart_service`. -/
inductive CmdOutcome where
  | done (r : CmdResult)
  | timeoutExp
  | exn (msg : String)
deriving Repr, DecidableEq

/-- Oracle for the restart shell commands: maps the full command string
to its outcome; also tells which paths are directories. -/
structure RestartEnv where
  isDir : String → Bool
  runShell : String → CmdOutcome

/-- The shell command string built by `restart_service`. -/
def restart_cmd (cp cmd svcName : String) : String :=
  "cd " ++ cp ++ " && " ++ cmd ++ " up -d " ++ svcName

/-- Run one shell command inside the `try` block of `restart_service`. -/
def runShellE (env : RestartEnv) (c : String) : Except PyExn CmdResult :=
  match env.runShell c with
  | .done r => .ok r
  | .timeoutExp => .error .timeoutExpired
  | .exn m => .error (.other m)

/-- Body of the `try` block of `restart_service`: `docker compose` (v2)
first, falling back to `docker-compose` (v1); after both fail the last
stderr, truncated to 200 characters, is reported. -/
def restart_service_body (svcName cp : String) (env : RestartEnv) :
    Except PyExn (Bool × String) := do
  let r1 ← runShellE env (restart_cmd cp "docker compose" svcName)
  if r1.returncode = 0 then pure (true, "Restarted successfully")
  else do
    let r2 ← runShellE env (restart_cmd cp "docker-compose" svcName)
    if r2.returncode = 0 then pure (true, "Restarted successfully")
    else pure (false, "Restart failed: " ++ pyTake r2.stderr 200)

/-- The `except` clauses of `restart_service`. -/
def restart_exn_msg : PyExn → String
  | .timeoutExpired => "Restart timeout (120s)"
  | .other m => "Restart error: " ++ m

/-- ServiceDescriptor: one monitored unit, static or auto-discovered.
Optional dict keys of the source become `Option` fields. -/
structure Service where
  name : String
  type : Option String := none
  container_pattern : Option String := none
  health_endpoint : Option String := none
  compose_path : Option String := none
  critical : Bool := false
  auto_discovered : Bool := false
  description : Option String := none
deriving Repr, DecidableEq

/-- `restart_service`: pre-checks on `compose_path`, then the guarded
fallback chain, every exception handled locally. -/
def restart_service (service : Service) (env : RestartEnv) : Bool × String :=
  if truthy service.compose_path then
    let cp := service.compose_path.getD ""
    if env.isDir cp then
      match restart_service_body service.name cp env with
      | .ok r => r
      | .error e => (false, restart_exn_msg e)
    else (false, "Compose path not found: " ++ cp)
  else (false, "No compose_path configured")

/-- Telegram channel credentials from the configuration. -/
structure TelegramCfg where
  bot_token : String
  chat_id : String
deriving Repr, DecidableEq

/-- Outcome of the `requests.post` call in `send_telegram`. -/
inductive PostOutcome where
  | resp (status_code : Nat) (text : String)
  | exn (msg : String)
deriving Repr, DecidableEq

/-- The `requests.post` call inside the `try` block of `send_telegram`. -/
def post_req (o : PostOutcome) : Except PyExn (Nat × String) :=
  match o with
  | .resp c t => .ok (c, t)
  | .exn m => .error (.other m)

/-- `send_telegram`: skipped (returning false) when credentials are
missing; otherwise true exactly on HTTP 200, every exception handled
locally. -/
def send_telegram (cfg : TelegramCfg) (o : PostOutcome) : Bool :=
  if cfg.bot_token = "" ∨ cfg.chat_id = "" then false
  else
    match post_req o with
    | .ok (code, _) => code = 200
    | .error _ => false

/-- The resolved settings block of the configuration, with the defaults
the source applies at each `config.get` site. -/
structure Settings where
  auto_discovery : Bool := true
  auto_restart : Bool := false
  alert_on_restart : Bool := true
  alert_on_recovery : Bool := true
deriving Repr, DecidableEq

/-- ServiceStateRecord: the persisted per-service status snapshot. -/
structure ServiceState where
  last_status : String
  last_check : Option Nat
  down_since : Option Nat
  restart_count_today : Nat
  restart_count_total : Nat
deriving Repr, DecidableEq

/-- The default record used for a never-seen service. -/
def defaultServiceState : ServiceState :=
  { last_status := "unknown", last_check := none, down_since := none,
    restart_count_today := 0, restart_count_total := 0 }

/-- Content of one service-down alert: error detail, action taken,
outcome text, as passed to `alert_service_down`. -/
structure DownAlert where
  error_msg : String
  action : String
  result : String
deriving Repr, DecidableEq

/-- Observable external effects of one `check_service` cycle: which
probes ran, whether the Restarter was invoked, and the alerts emitted
(the recovery alert carries its downtime in minutes). -/
structure Effects where
  docker_probed : Bool
  http_probed : Bool
  restart_invoked : Bool
  down_alert : Option DownAlert
  recovery_alert : Option Nat
deriving Repr, DecidableEq

/-- Environment of one `check_service` cycle: the current time and the
oracles for the external calls it may issue. -/
structure CheckEnv where
  now : Nat
  dockerEnv : DockerEnv
  httpOutcome : String → HttpOutcome
  restartEnv : RestartEnv

/-- Daily reset at the top of `check_service`: when the recorded
`last_check` exists and its calendar date differs from today,
`restart_count_today` is reset to 0. -/
def daily_reset (s : ServiceState) (now : Nat) : ServiceState :=
  match s.last_check with
  | some t => if dayOf t ≠ dayOf now then { s with restart_count_today := 0 } else s
  | none => s

/-- Check 1 of `check_service`: the docker-container probe, applied only
to descriptors of type docker; a failing probe supplies the error
message, a passing or absent probe leaves it empty. -/
def container_check (service : Service) (env : CheckEnv) : Bool × String :=
  if service.type = some "docker" then
    let r := check_docker_container service.name service.container_pattern env.dockerEnv
    if r.1 then (true, "") else (false, r.2)
  else (true, "")

/-- Combined probe of `check_service` (checks 1 and 2): the health
endpoint is queried only when it is set and the container check passed;
the result records the final health verdict, the error message, and
which probes actually ran. -/
def probe_service (service : Service) (env : CheckEnv) :
    Bool × String × Bool × Bool :=
  let c := container_check service env
  let dockerProbed := decide (service.type = some "docker")
  if c.1 ∧ truthy service.health_endpoint then
    let h := check_health_endpoint (env.httpOutcome (service.health_endpoint.getD ""))
    if h.1 then (true, c.2, dockerProbed, true)
    else (false, "Health check failed: " ++ h.2, dockerProbed, true)
  else (c.1, c.2, dockerProbed, false)

/-- `check_service`: one cycle of the health coordinator for one
service. Takes the descriptor, the settings, the prior persisted record
(absent for a never-seen service) and the environment; returns the
updated record together with the observable effects of the cycle. -/
def check_service (service : Service) (settings : Settings)
    (prior : Option ServiceState) (env : CheckEnv) : ServiceState × Effects :=
  let s0 := prior.getD defaultServiceState
  let s1 := daily_reset s0 env.now
  let p := probe_service service env
  let is_healthy := p.1
  let error_msg := p.2.1
  let was_healthy := s1.last_status = "healthy"
  if is_healthy then
    let recovery : Option Nat :=
      if ¬ was_healthy ∧ s1.down_since.isSome then
        let downtime := (env.now - s1.down_since.getD 0) / 60
        if settings.alert_on_recovery then some downtime else none
      else none
    ({ s1 with last_status := "healthy", down_since := none,
               last_check := some env.now },
     { docker_probed := p.2.2.1, http_probed := p.2.2.2,
       restart_invoked := false, down_alert := none,
       recovery_alert := recovery })
  else
    let s2 := if was_healthy ∨ s1.last_status = "unknown"
              then { s1 with down_since := some env.now } else s1
    let rr := restart_service service env.restartEnv
    let action := if settings.auto_restart then "Attempting restart..."
                  else "Manual intervention needed"
    let outcome :=
      if settings.auto_restart then
        (if rr.1 then "✅ Restarted successfully" else "❌ " ++ rr.2)
      else "❌ Auto-restart disabled"
    let s3 :=
      if settings.auto_restart ∧ rr.1 = true then
        { s2 with last_status := "down",
                  restart_count_today := s2.restart_count_today + 1,
                  restart_count_total := s2.restart_count_total + 1 }
      else { s2 with last_status := "down" }
    let downA := if settings.alert_on_restart
                 then some { error_msg := error_msg, action := action,
                             result := outcome }
                 else none
    ({ s3 with last_check := some env.now },
     { docker_probed := p.2.2.1, http_probed := p.2.2.2,
       restart_invoked := settings.auto_restart, down_alert := downA,
       recovery_alert := none })

/-- Iterated check cycles for a single service: runs `check_service` on
each environment in turn, threading the persisted record, and collects
the per-cycle effects. -/
def run_cycles (service : Service) (settings : Settings) :
    Option ServiceState → List CheckEnv → Option ServiceState × List Effects
  | st, [] => (st, [])
  | st, env :: rest =>
    let r := check_service service settings st env
    let step := run_cycles service settings (some r.1) rest
    (step.1, r.2 :: step.2)

/-- The `seen_names` deduplication of `discover_containers`: candidates
are kept in order, dropping any whose name was already seen. -/
def dedupByName : List Service → List String → List Service
  | [], _ => []
  | s :: rest, seen =>
    if s.name ∈ seen then dedupByName rest seen
    else s :: dedupByName rest (s.name :: seen)

/-- `discover_containers`, abstracted over its environment: the oracle
supplies, in order, the candidate descriptors built from the running
containers matching the patterns and from the scanned compose files;
the function deduplicates them by name, first occurrence winning. -/
def discover_containers (candidates : List Service) : List Service :=
  dedupByName candidates []

/-- `get_all_services`: the statically configured services first, then,
when auto-discovery is enabled, every discovered descriptor whose name
is not among the statically configured names. -/
def get_all_services (manual : List Service) (settings : Settings)
    (candidates : List Service) : List Service :=
  let manual_names := manual.map Service.name
  if settings.auto_discovery then
    manual ++ (discover_containers candidates).filter
      (fun d => decide (d.name ∉ manual_names))
  else manual

/-- A persisted record with its `lastCheckTimestamp` erased, for
comparing two cycle outputs up to that field. -/
def eraseCheck (s : ServiceState) : ServiceState :=
  { s with last_check := none }

/-- Whether a cycle performs a successful restart: the combined probe
failed, auto-restart is enabled, and the Restarter reported success. -/
def restart_succeeds (service : Service) (settings : Settings)
    (env : CheckEnv) : Bool :=
  !(probe_service service env).1 && settings.auto_restart &&
    (restart_service service env.restartEnv).1

/-- Concrete docker-type descriptor used in witnesses. -/
def svcDocker : Service := { name := "svc", type := some "docker" }

/-- Concrete non-docker descriptor without a health endpoint. -/
def svcPlain : Service := { name := "plain" }

/-- Concrete non-docker descriptor with a health endpoint. -/
def svcWithEp : Service := { name := "api", health_endpoint := some "http://x/health" }

/-- Concrete docker descriptor with a compose path, so restarts can run. -/
def svcRestartable : Service :=
  { name := "svc", type := some "docker", compose_path := some "/x" }

/-- Docker oracle reporting no matching container at all. -/
def psEmpty : DockerEnv := ⟨fun _ => .ok ""⟩

/-- Docker oracle reporting a running container. -/
def psUp : DockerEnv := ⟨fun _ => .ok "Up 3 hours"⟩

/-- Docker oracle whose every call times out. -/
def psTimeout : DockerEnv := ⟨fun _ => .timeoutExp⟩

/-- Restart oracle where every shell command raises. -/
def restartFailEnv : RestartEnv := ⟨fun _ => false, fun _ => .exn "boom"⟩

/-- Restart oracle where the compose directory exists and the first
command form exits with code 0. -/
def restartOkEnv : RestartEnv := ⟨fun _ => true, fun _ => .done ⟨0, ""⟩⟩

/-- HTTP oracle answering 200 to every GET. -/
def http200 : String → HttpOutcome := fun _ => .resp 200

/-- Environment in which the docker probe finds nothing. -/
def envDown : CheckEnv :=
  { now := 100000, dockerEnv := psEmpty, httpOutcome := http200,
    restartEnv := restartFailEnv }

/-- Environment in which the docker probe reports a running container. -/
def envUp : CheckEnv :=
  { now := 100000, dockerEnv := psUp, httpOutcome := http200,
    restartEnv := restartFailEnv }

/-- Environment in which the probe fails but the restart command
succeeds. -/
def envDownRestartOk : CheckEnv :=
  { now := 100000, dockerEnv := psEmpty, httpOutcome := http200,
    restartEnv := restartOkEnv }

/-- Settings with auto-restart switched on. -/
def settingsRestart : Settings := { auto_restart := true }

/-- A record of a service that has been down since second 97000. -/
def stDown : ServiceState :=
  { last_status := "down", last_check := some 90000, down_since := some 97000,
    restart_count_today := 0, restart_count_total := 2 }

/-- A record last checked on day 0, with nonzero restart counters. -/
def stOld : ServiceState :=
  { last_status := "down", last_check := some 0, down_since := some 0,
    restart_count_today := 5, restart_count_total := 7 }

/-- Static descriptor named dup. -/
def svcStaticA : Service := { name := "dup", description := some "static one" }

/-- A second static descriptor with the same name. -/
def svcStaticB : Service := { name := "dup", description := some "static two" }

/-- Auto-discovered descriptor sharing the name dup. -/
def svcDiscovered : Service :=
  { name := "dup", type := some "docker", auto_discovered := true,
    description := some "Auto-discovered: dup" }

/-- The daily reset never changes the recorded status. -/
theorem daily_reset_last_status (s : ServiceState) (now : Nat) :
    (daily_reset s now).last_status = s.last_status := by
  rcases h : s.last_check with _ | t <;> simp [daily_reset, h] <;> split <;> rfl

/-- The daily reset never changes the outage start. -/
theorem daily_reset_down_since (s : ServiceState) (now : Nat) :
    (daily_reset s now).down_since = s.down_since := by
  rcases h : s.last_check with _ | t <;> simp [daily_reset, h] <;> split <;> rfl

/-- The daily reset never changes the total restart counter. -/
theorem daily_reset_total (s : ServiceState) (now : Nat) :
    (daily_reset s now).restart_count_total = s.restart_count_total := by
  rcases h : s.last_check with _ | t <;> simp [daily_reset, h] <;> split <;> rfl

/-- The daily reset never changes the recorded check time. -/
theorem daily_reset_last_check (s : ServiceState) (now : Nat) :
    (daily_reset s now).last_check = s.last_check := by
  rcases h : s.last_check with _ | t
  · simp [daily_reset, h]
  · simp only [daily_reset, h]
    split <;> simp_all

/-- Within the same calendar date the daily reset is the identity. -/
theorem daily_reset_same_day (s : ServiceState) (now t : Nat)
    (h : s.last_check = some t) (hd : dayOf t = dayOf now) :
    daily_reset s now = s := by
  simp [daily_reset, h, hd]

/-- Across a calendar-date boundary the daily reset zeroes exactly the
daily counter. -/
theorem daily_reset_new_day (s : ServiceState) (now t : Nat)
    (h : s.last_check = some t) (hd : dayOf t ≠ dayOf now) :
    daily_reset s now = { s with restart_count_today := 0 } := by
  simp [daily_reset, h, hd]

/-- Two persisted records are equal when all five fields agree. -/
theorem serviceState_ext {a b : ServiceState}
    (h1 : a.last_status = b.last_status) (h2 : a.last_check = b.last_check)
    (h3 : a.down_since = b.down_since)
    (h4 : a.restart_count_today = b.restart_count_today)
    (h5 : a.restart_count_total = b.restart_count_total) : a = b := by
  cases a; cases b; simp_all

/-- The probe ignores the clock: it only consults the docker and HTTP
oracles. -/
theorem probe_service_now (service : Service) (env : CheckEnv) (t : Nat) :
    probe_service service { env with now := t } = probe_service service env := rfl

/-- Every cycle stamps the record with the current time. -/
theorem cs_last_check (service : Service) (settings : Settings)
    (prior : Option ServiceState) (env : CheckEnv) :
    (check_service service settings prior env).1.last_check = some env.now := by
  simp only [check_service]
  split <;> rfl

/-- The recorded status after a cycle follows the probe verdict. -/
theorem cs_last_status (service : Service) (settings : Settings)
    (prior : Option ServiceState) (env : CheckEnv) :
    (check_service service settings prior env).1.last_status =
      (if (probe_service service env).1 = true then "healthy" else "down") := by
  simp only [check_service]
  by_cases hp : (probe_service service env).1 = true <;>
    simp_all [apply_ite ServiceState.last_status]

/-- The outage start after a cycle: cleared on a healthy probe, stamped
with now on the edge into outage, untouched on a repeated down
observation. -/
theorem cs_down_since (service : Service) (settings : Settings)
    (prior : Option ServiceState) (env : CheckEnv) :
    (check_service service settings prior env).1.down_since =
      (if (probe_service service env).1 = true then none
       else if (prior.getD defaultServiceState).last_status = "healthy"
              ∨ (prior.getD defaultServiceState).last_status = "unknown"
            then some env.now
            else (prior.getD defaultServiceState).down_since) := by
  have hs := daily_reset_last_status (prior.getD defaultServiceState) env.now
  have hd := daily_reset_down_since (prior.getD defaultServiceState) env.now
  simp only [check_service]
  by_cases hp : (probe_service service env).1 = true <;>
    simp_all [apply_ite ServiceState.down_since]

/-- The daily restart counter after a cycle: the post-reset value plus
one exactly on a successful restart. -/
theorem cs_today (service : Service) (settings : Settings)
    (prior : Option ServiceState) (env : CheckEnv) :
    (check_service service settings prior env).1.restart_count_today =
      (daily_reset (prior.getD defaultServiceState) env.now).restart_count_today
        + (if restart_succeeds service settings env = true then 1 else 0) := by
  simp only [check_service, restart_succeeds]
  by_cases hp : (probe_service service env).1 = true <;>
    by_cases har : settings.auto_restart = true <;>
    by_cases hrr : (restart_service service env.restartEnv).1 = true <;>
    simp_all [apply_ite ServiceState.restart_count_today]

/-- The total restart counter after a cycle: the prior value plus one
exactly on a successful restart; the daily reset never touches it. -/
theorem cs_total (service : Service) (settings : Settings)
    (prior : Option ServiceState) (env : CheckEnv) :
    (check_service service settings prior env).1.restart_count_total =
      (prior.getD defaultServiceState).restart_count_total
        + (if restart_succeeds service settings env = true then 1 else 0) := by
  have ht := daily_reset_total (prior.getD defaultServiceState) env.now
  simp only [check_service, restart_succeeds]
  by_cases hp : (probe_service service env).1 = true <;>
    by_cases har : settings.auto_restart = true <;>
    by_cases hrr : (restart_service service env.restartEnv).1 = true <;>
    simp_all [apply_ite ServiceState.restart_count_total]

/-- The Restarter is invoked exactly on an unhealthy cycle with
auto-restart enabled. -/
theorem cs_restart_invoked (service : Service) (settings : Settings)
    (prior : Option ServiceState) (env : CheckEnv) :
    (check_service service settings prior env).2.restart_invoked =
      (!(probe_service service env).1 && settings.auto_restart) := by
  simp only [check_service]
  by_cases hp : (probe_service service env).1 = true <;> simp_all

/-- The down alert of a cycle: absent on a healthy probe or with
down-alerting disabled; otherwise it carries the probe detail and the
action and outcome strings of the restart policy. -/
theorem cs_down_alert (service : Service) (settings : Settings)
    (prior : Option ServiceState) (env : CheckEnv) :
    (check_service service settings prior env).2.down_alert =
      (if (probe_service service env).1 = true then none
       else if settings.alert_on_restart = true then
         some { error_msg := (probe_service service env).2.1,
                action := if settings.auto_restart = true
                          then "Attempting restart..."
                          else "Manual intervention needed",
                result := if settings.auto_restart = true then
                            (if (restart_service service env.restartEnv).1 = true
                             then "✅ Restarted successfully"
                             else "❌ " ++ (restart_service service env.restartEnv).2)
                          else "❌ Auto-restart disabled" }
       else none) := by
  simp only [check_service]
  by_cases hp : (probe_service service env).1 = true <;>
    by_cases har : settings.auto_restart = true <;>
    by_cases hal : settings.alert_on_restart = true <;>
    by_cases hrr : (restart_service service env.restartEnv).1 = true <;>
    simp_all

/-- The recovery alert of a cycle: present exactly on a healthy probe
after a non-healthy record with a recorded outage start, when recovery
alerting is enabled; it carries the downtime in whole minutes. -/
theorem cs_recovery_alert (service : Service) (settings : Settings)
    (prior : Option ServiceState) (env : CheckEnv) :
    (check_service service settings prior env).2.recovery_alert =
      (if (probe_service service env).1 = true then
         (if ¬ ((prior.getD defaultServiceState).last_status = "healthy")
             ∧ ((prior.getD defaultServiceState).down_since).isSome = true then
            (if settings.alert_on_recovery = true then
               some ((env.now - ((prior.getD defaultServiceState).down_since).getD 0) / 60)
             else none)
          else none)
       else none) := by
  have hs := daily_reset_last_status (prior.getD defaultServiceState) env.now
  have hd := daily_reset_down_since (prior.getD defaultServiceState) env.now
  simp only [check_service]
  by_cases hp : (probe_service service env).1 = true <;> simp_all

/-- A cycle reports exactly the probes that ran. -/
theorem cs_probes (service : Service) (settings : Settings)
    (prior : Option ServiceState) (env : CheckEnv) :
    (check_service service settings prior env).2.docker_probed =
        (probe_service service env).2.2.1 ∧
    (check_service service settings prior env).2.http_probed =
        (probe_service service env).2.2.2 := by
  simp only [check_service]
  constructor <;> split <;> rfl

/-- A string starting with the HTTP marker differs from any string whose
first character is not H. -/
theorem http_prefix_ne (x s : String) (hs : s.get 0 ≠ 'H') :
    "HTTP " ++ x ≠ s := by
  intro h
  have h1 : ("HTTP " ++ x).get 0 = 'H' := rfl
  rw [h] at h1
  exact hs h1

/-- C9: the probe operations, the restart operation, and the notify
operation catch every external-call failure at the call site and return
it as a local result value, never letting the exception escape to the
caller: whenever the body of the corresponding try block raises, the
function returns false together with the detail string of the matching
except clause. -/
theorem external_failures_contained :
    (∀ name pat env e, check_docker_container_body name pat env = .error e →
       check_docker_container name pat env = (false, docker_exn_msg e)) ∧
    (∀ o e, http_get o = .error e →
       check_health_endpoint o = (false, http_exn_msg e)) ∧
    (∀ s env e, truthy s.compose_path = true →
       env.isDir (s.compose_path.getD "") = true →
       restart_service_body s.name (s.compose_path.getD "") env = .error e →
       restart_service s env = (false, restart_exn_msg e)) ∧
    (∀ cfg o e, post_req o = .error e → send_telegram cfg o = false) := by
  refine ⟨?_, ?_, ?_, ?_⟩
  · intro name pat env e h
    simp [check_docker_container, h]
  · intro o e h
    simp [check_health_endpoint, h]
  · intro s env e h1 h2 h3
    simp [restart_service, h1, h2, h3]
  · intro cfg o e h
    simp [send_telegram, h]

/-- Witness for C9: a docker probe whose subprocess call times out
returns the local timeout detail. -/
theorem external_failures_contained_witness :
    check_docker_container "svc" none psTimeout = (false, "Docker command timeout") :=
  external_failures_contained.1 "svc" none psTimeout .timeoutExpired rfl

/-- C8: with a health endpoint set, the secondary HTTP probe is issued
exactly when the container check passed (vacuously passed for
non-docker descriptors); the combined probe is healthy exactly on an
HTTP 200 response; connection failure, timeout and non-200 responses
yield pairwise distinct unhealthy detail strings. -/
theorem health_endpoint_probe_spec (service : Service) (env : CheckEnv)
    (hep : truthy service.health_endpoint = true) :
    ((probe_service service env).2.2.2 = (container_check service env).1) ∧
    ((container_check service env).1 = true →
      ((probe_service service env).1 = true ↔
        env.httpOutcome (service.health_endpoint.getD "") = .resp 200)) ∧
    (∀ c : Nat, c ≠ 200 →
      (check_health_endpoint (.resp c)).1 = false ∧
      (check_health_endpoint (.resp c)).2 ≠ (check_health_endpoint .connError).2 ∧
      (check_health_endpoint (.resp c)).2 ≠ (check_health_endpoint .timeoutErr).2) ∧
    (check_health_endpoint .connError).2 ≠ (check_health_endpoint .timeoutErr).2 := by
  refine ⟨?_, ?_, ?_, by decide⟩
  · by_cases hc : (container_check service env).1 = true <;>
      simp_all [probe_service, hep] <;> split <;> simp_all
  · intro hc
    rcases ho : env.httpOutcome (service.health_endpoint.getD "") with c | _ | _ | m
    · by_cases h200 : c = 200 <;>
        simp_all [probe_service, hep, check_health_endpoint, http_get]
    · simp_all [probe_service, hep, check_health_endpoint, http_get]
    · simp_all [probe_service, hep, check_health_endpoint, http_get]
    · simp_all [probe_service, hep, check_health_endpoint, http_get]
  · intro c hc
    have hr : check_health_endpoint (.resp c) = (false, "HTTP " ++ toString c) := by
      simp [check_health_endpoint, http_get, hc]
    refine ⟨by rw [hr], ?_, ?_⟩
    · rw [hr]
      exact http_prefix_ne (toString c) _ (by decide)
    · rw [hr]
      exact http_prefix_ne (toString c) _ (by decide)

/-- Witness for C8: for a descriptor with only a health endpoint the
container check vacuously passes, the endpoint is probed and a 200
answer makes the probe healthy. -/
theorem health_endpoint_probe_spec_witness :
    ((probe_service svcWithEp envUp).2.2.2 = (container_check svcWithEp envUp).1) ∧
    ((probe_service svcWithEp envUp).1 = true ↔
      envUp.httpOutcome (svcWithEp.health_endpoint.getD "") = .resp 200) :=
  ⟨(health_endpoint_probe_spec svcWithEp envUp rfl).1,
   (health_endpoint_probe_spec svcWithEp envUp rfl).2.1 rfl⟩

/-- C5: a service first seen with the default record transitions on an
unhealthy first observation to status down with the outage start set to
now, and on a healthy first observation to status healthy with no
recovery alert. -/
theorem first_seen_transition (service : Service) (settings : Settings)
    (env : CheckEnv) :
    ((probe_service service env).1 = false →
      (check_service service settings none env).1.last_status = "down" ∧
      (check_service service settings none env).1.down_since = some env.now) ∧
    ((probe_service service env).1 = true →
      (check_service service settings none env).1.last_status = "healthy" ∧
      (check_service service settings none env).2.recovery_alert = none) := by
  constructor
  · intro hp
    constructor
    · simp [cs_last_status, hp]
    · simp [cs_down_since, hp, defaultServiceState]
  · intro hp
    constructor
    · simp [cs_last_status, hp]
    · simp [cs_recovery_alert, hp, defaultServiceState]

/-- Witness for C5: first-seen transitions at concrete down and up
environments. -/
theorem first_seen_transition_witness :
    ((check_service svcDocker {} none envDown).1.last_status = "down" ∧
     (check_service svcDocker {} none envDown).1.down_since = some envDown.now) ∧
    ((check_service svcDocker {} none envUp).1.last_status = "healthy" ∧
     (check_service svcDocker {} none envUp).2.recovery_alert = none) :=
  ⟨(first_seen_transition svcDocker {} envDown).1 (by decide),
   (first_seen_transition svcDocker {} envUp).2 (by decide)⟩

/-- C10: a descriptor that is not docker-typed and has no health
endpoint is never probed and is always recorded healthy with the outage
start cleared, whatever the prior record and the environment. -/
theorem no_probe_always_healthy (service : Service) (settings : Settings)
    (prior : Option ServiceState) (env : CheckEnv)
    (ht : service.type ≠ some "docker") (he : service.health_endpoint = none) :
    (check_service service settings prior env).1.last_status = "healthy" ∧
    (check_service service settings prior env).1.down_since = none ∧
    (check_service service settings prior env).2.docker_probed = false ∧
    (check_service service settings prior env).2.http_probed = false := by
  have hp : probe_service service env = (true, "", false, false) := by
    simp [probe_service, container_check, ht, he, truthy]
  refine ⟨?_, ?_, ?_, ?_⟩
  · simp [cs_last_status, hp]
  · simp [cs_down_since, hp]
  · simp [(cs_probes service settings prior env).1, hp]
  · simp [(cs_probes service settings prior env).2, hp]

/-- Witness for C10: a plain descriptor is recorded healthy without any
probe even in an environment where every docker call would fail. -/
theorem no_probe_always_healthy_witness :
    (check_service svcPlain {} none envDown).1.last_status = "healthy" ∧
    (check_service svcPlain {} none envDown).1.down_since = none ∧
    (check_service svcPlain {} none envDown).2.docker_probed = false ∧
    (check_service svcPlain {} none envDown).2.http_probed = false :=
  no_probe_always_healthy svcPlain {} none envDown (by decide) rfl

/-- C2: when the prior record is not healthy and has an outage start, a
healthy probe computes the downtime in whole minutes, emits the recovery
alert exactly when recovery alerting is enabled, clears the outage start
and records the service healthy. -/
theorem recovery_cycle_spec (service : Service) (settings : Settings)
    (st : ServiceState) (env : CheckEnv) (d : Nat)
    (hst : st.last_status ≠ "healthy") (hds : st.down_since = some d)
    (hle : d ≤ env.now)
    (hp : (probe_service service env).1 = true) :
    (check_service service settings (some st) env).2.recovery_alert =
      (if settings.alert_on_recovery = true then some ((env.now - d) / 60) else none) ∧
    (check_service service settings (some st) env).1.down_since = none ∧
    (check_service service settings (some st) env).1.last_status = "healthy" := by
  refine ⟨?_, ?_, ?_⟩
  · rw [cs_recovery_alert]
    simp [hp, hst, hds]
  · rw [cs_down_since]
    simp [hp]
  · rw [cs_last_status]
    simp [hp]

/-- Witness for C2: a service down for 3000 seconds recovers with a
50-minute downtime alert. -/
theorem recovery_cycle_spec_witness :
    (check_service svcDocker {} (some stDown) envUp).2.recovery_alert = some 50 ∧
    (check_service svcDocker {} (some stDown) envUp).1.down_since = none ∧
    (check_service svcDocker {} (some stDown) envUp).1.last_status = "healthy" :=
  recovery_cycle_spec svcDocker {} stDown envUp 97000 (by decide) rfl
    (by decide) (by decide)

/-- C3: when the recorded check time exists and lies on a different
calendar date, the daily restart counter is reset before the health
evaluation, so the cycle leaves it at 1 exactly on a successful restart
and at 0 otherwise; the reset never changes the total counter, which
still grows only by a successful restart. -/
theorem daily_counter_reset_spec (service : Service) (settings : Settings)
    (st : ServiceState) (env : CheckEnv) (t : Nat)
    (hlc : st.last_check = some t) (hday : dayOf t ≠ dayOf env.now) :
    (check_service service settings (some st) env).1.restart_count_today =
      (if restart_succeeds service settings env = true then 1 else 0) ∧
    (check_service service settings (some st) env).1.restart_count_total =
      st.restart_count_total +
      (if restart_succeeds service settings env = true then 1 else 0) := by
  constructor
  · rw [cs_today]
    simp [daily_reset_new_day st env.now t hlc hday]
  · rw [cs_total]
    simp

/-- Witness for C3: a record from day 0 checked on day 1 has its daily
counter reset to 0 while the total stays at 7. -/
theorem daily_counter_reset_spec_witness :
    (check_service svcDocker {} (some stOld) envDown).1.restart_count_today = 0 ∧
    (check_service svcDocker {} (some stOld) envDown).1.restart_count_total = 7 :=
  daily_counter_reset_spec svcDocker {} stOld envDown 0 rfl (by decide)

/-- C4: on an unhealthy cycle the Restarter is invoked exactly when
auto-restart is enabled; with it disabled the alert records manual
intervention and the disabled outcome with counters untouched; with it
enabled, a successful restart increments both counters by one and
records the success outcome, while a failed restart leaves the counters
and records the failure detail. -/
theorem unhealthy_restart_policy (service : Service) (settings : Settings)
    (prior : Option ServiceState) (env : CheckEnv)
    (hp : (probe_service service env).1 = false)
    (hal : settings.alert_on_restart = true) :
    (check_service service settings prior env).2.restart_invoked = settings.auto_restart ∧
    (settings.auto_restart = false →
      (check_service service settings prior env).2.down_alert =
        some { error_msg := (probe_service service env).2.1,
               action := "Manual intervention needed",
               result := "❌ Auto-restart disabled" } ∧
      (check_service service settings prior env).1.restart_count_today =
        (daily_reset (prior.getD defaultServiceState) env.now).restart_count_today ∧
      (check_service service settings prior env).1.restart_count_total =
        (prior.getD defaultServiceState).restart_count_total) ∧
    (settings.auto_restart = true →
      ((restart_service service env.restartEnv).1 = true →
        (check_service service settings prior env).2.down_alert =
          some { error_msg := (probe_service service env).2.1,
                 action := "Attempting restart...",
                 result := "✅ Restarted successfully" } ∧
        (check_service service settings prior env).1.restart_count_today =
          (daily_reset (prior.getD defaultServiceState) env.now).restart_count_today + 1 ∧
        (check_service service settings prior env).1.restart_count_total =
          (prior.getD defaultServiceState).restart_count_total + 1) ∧
      ((restart_service service env.restartEnv).1 = false →
        (check_service service settings prior env).2.down_alert =
          some { error_msg := (probe_service service env).2.1,
                 action := "Attempting restart...",
                 result := "❌ " ++ (restart_service service env.restartEnv).2 } ∧
        (check_service service settings prior env).1.restart_count_today =
          (daily_reset (prior.getD defaultServiceState) env.now).restart_count_today ∧
        (check_service service settings prior env).1.restart_count_total =
          (prior.getD defaultServiceState).restart_count_total)) := by
  refine ⟨?_, ?_, ?_⟩
  · rw [cs_restart_invoked]
    simp [hp]
  · intro har
    refine ⟨?_, ?_, ?_⟩
    · rw [cs_down_alert]
      simp [hp, hal, har]
    · rw [cs_today]
      simp [restart_succeeds, hp, har]
    · rw [cs_total]
      simp [restart_succeeds, hp, har]
  · intro har
    constructor
    · intro hrr
      refine ⟨?_, ?_, ?_⟩
      · rw [cs_down_alert]
        simp [hp, hal, har, hrr]
      · rw [cs_today]
        simp [restart_succeeds, hp, har, hrr]
      · rw [cs_total]
        simp [restart_succeeds, hp, har, hrr]
    · intro hrr
      refine ⟨?_, ?_, ?_⟩
      · rw [cs_down_alert]
        simp [hp, hal, har, hrr]
      · rw [cs_today]
        simp [restart_succeeds, hp, har, hrr]
      · rw [cs_total]
        simp [restart_succeeds, hp, har, hrr]

/-- Witness for C4: with auto-restart disabled and a failing probe, no
Restarter call happens and the alert reads manual intervention with the
disabled outcome. -/
theorem unhealthy_restart_policy_witness :
    (check_service svcDocker {} none envDown).2.restart_invoked = false ∧
    (check_service svcDocker {} none envDown).2.down_alert =
      some { error_msg := "Container not found",
             action := "Manual intervention needed",
             result := "❌ Auto-restart disabled" } :=
  ⟨(unhealthy_restart_policy svcDocker {} none envDown (by decide) rfl).1,
   ((unhealthy_restart_policy svcDocker {} none envDown (by decide) rfl).2.1 rfl).1⟩

/-- Edge into outage: from a healthy or unknown record, an unhealthy
probe records status down, stamps the outage start with now, and emits
the down alert exactly when down-alerting is enabled. -/
theorem check_service_down_edge (service : Service) (settings : Settings)
    (prior : Option ServiceState) (env : CheckEnv)
    (hst : (prior.getD defaultServiceState).last_status = "healthy" ∨
           (prior.getD defaultServiceState).last_status = "unknown")
    (hp : (probe_service service env).1 = false) :
    (check_service service settings prior env).1.last_status = "down" ∧
    (check_service service settings prior env).1.down_since = some env.now ∧
    (check_service service settings prior env).2.down_alert.isSome =
      settings.alert_on_restart := by
  refine ⟨?_, ?_, ?_⟩
  · rw [cs_last_status]
    simp [hp]
  · rw [cs_down_since]
    simp [hp, hst]
  · rw [cs_down_alert]
    by_cases hal : settings.alert_on_restart = true <;> simp_all

/-- Repeated down observation: from a down record, an unhealthy probe
keeps status down, leaves the outage start untouched, and still emits
the down alert exactly when down-alerting is enabled. -/
theorem check_service_down_steady (service : Service) (settings : Settings)
    (st : ServiceState) (env : CheckEnv)
    (hst : st.last_status = "down")
    (hp : (probe_service service env).1 = false) :
    (check_service service settings (some st) env).1.last_status = "down" ∧
    (check_service service settings (some st) env).1.down_since = st.down_since ∧
    (check_service service settings (some st) env).2.down_alert.isSome =
      settings.alert_on_restart := by
  refine ⟨?_, ?_, ?_⟩
  · rw [cs_last_status]
    simp [hp]
  · rw [cs_down_since]
    simp [hp, hst]
  · rw [cs_down_alert]
    by_cases hal : settings.alert_on_restart = true <;> simp_all

/-- Invariant over consecutive down cycles starting from a down record:
every cycle emits the down alert exactly when down-alerting is enabled,
and the final record is still down with the outage start unchanged. -/
theorem run_cycles_down_invariant (service : Service) (settings : Settings)
    (envs : List CheckEnv) :
    ∀ st : ServiceState, st.last_status = "down" →
      (∀ e ∈ envs, (probe_service service e).1 = false) →
      ((run_cycles service settings (some st) envs).2.map
         (fun ef => ef.down_alert.isSome)) =
        List.replicate envs.length settings.alert_on_restart ∧
      ∃ fin, (run_cycles service settings (some st) envs).1 = some fin ∧
        fin.last_status = "down" ∧ fin.down_since = st.down_since := by
  induction envs with
  | nil =>
    intro st h1 _
    exact ⟨rfl, st, rfl, h1, rfl⟩
  | cons e rest ih =>
    intro st h1 h2
    have hp : (probe_service service e).1 = false := h2 e (by simp)
    obtain ⟨hs1, hs2, hs3⟩ := check_service_down_steady service settings st e h1 hp
    obtain ⟨hmap, fin, hfin, hfs, hfd⟩ :=
      ih (check_service service settings (some st) e).1 hs1
        (fun x hx => h2 x (by simp [hx]))
    constructor
    · simp [run_cycles, hmap, hs3, List.replicate_succ]
    · exact ⟨fin, by simp [run_cycles, hfin], hfs, by rw [hfd, hs2]⟩

/-- C1 counterexample: with down alerting enabled, a service observed
down on two consecutive cycles emits a down alert on both cycles, not
only on cycle 1. -/
theorem down_alert_not_edge_only_cx :
    ((run_cycles svcDocker {} none [envDown, envDown]).2.map
       (fun ef => ef.down_alert.isSome)) = [true, true] := by decide

/-- C1 amended: over N consecutive down cycles the transition into
outage fires exactly once, on cycle 1 — the outage start is stamped
with the cycle-1 time and preserved by every later down cycle — while
the down alert is emitted on every one of the N cycles whenever
down-alerting is enabled, not only on cycle 1. -/
theorem down_cycles_edge_and_alerts (service : Service) (settings : Settings)
    (prior : Option ServiceState) (env0 : CheckEnv) (envs : List CheckEnv)
    (hst : (prior.getD defaultServiceState).last_status = "healthy" ∨
           (prior.getD defaultServiceState).last_status = "unknown")
    (hdown : ∀ e ∈ env0 :: envs, (probe_service service e).1 = false) :
    ((run_cycles service settings prior (env0 :: envs)).2.map
       (fun ef => ef.down_alert.isSome)) =
      List.replicate (envs.length + 1) settings.alert_on_restart ∧
    ∃ fin, (run_cycles service settings prior (env0 :: envs)).1 = some fin ∧
      fin.last_status = "down" ∧ fin.down_since = some env0.now := by
  have hp0 : (probe_service service env0).1 = false := hdown env0 (by simp)
  obtain ⟨h1, h2, h3⟩ := check_service_down_edge service settings prior env0 hst hp0
  obtain ⟨hmap, fin, hfin, hfs, hfd⟩ :=
    run_cycles_down_invariant service settings envs
      (check_service service settings prior env0).1 h1
      (fun x hx => hdown x (by simp [hx]))
  constructor
  · simp [run_cycles, hmap, h3, List.replicate_succ]
  · exact ⟨fin, by simp [run_cycles, hfin], hfs, by rw [hfd, h2]⟩

/-- Witness for the amended C1: a single down cycle from a never-seen
record fires the alert and stamps the outage start. -/
theorem down_cycles_edge_and_alerts_witness :
    ((run_cycles svcDocker {} none [envDown]).2.map
       (fun ef => ef.down_alert.isSome)) = List.replicate 1 true ∧
    ∃ fin, (run_cycles svcDocker {} none [envDown]).1 = some fin ∧
      fin.last_status = "down" ∧ fin.down_since = some envDown.now :=
  down_cycles_edge_and_alerts svcDocker {} none envDown [] (Or.inr rfl) (by decide)

/-- The discovery deduplication yields pairwise distinct names, none of
which was in the seen set. -/
theorem dedupByName_nodup (l : List Service) :
    ∀ seen : List String,
      ((dedupByName l seen).map Service.name).Nodup ∧
      ∀ n ∈ (dedupByName l seen).map Service.name, n ∉ seen := by
  induction l with
  | nil =>
    intro seen
    simp [dedupByName]
  | cons s rest ih =>
    intro seen
    by_cases h : s.name ∈ seen
    · simpa [dedupByName, h] using ih seen
    · obtain ⟨ihn, ihs⟩ := ih (s.name :: seen)
      simp only [dedupByName, h, if_neg, List.map_cons, List.nodup_cons,
        List.mem_cons, not_false_eq_true, if_false]
      refine ⟨⟨?_, ihn⟩, ?_⟩
      · intro hmem
        exact (ihs s.name hmem) (by simp)
      · intro n hn
        rcases hn with rfl | hn2
        · exact h
        · intro hns
          exact (ihs n hn2) (by simp [hns])

/-- Filtering a name-nodup list by the name of one of its members
returns exactly that member. -/
theorem filter_name_of_nodup (m : Service) :
    ∀ l : List Service, (l.map Service.name).Nodup → m ∈ l →
      l.filter (fun s => s.name == m.name) = [m] := by
  intro l
  induction l with
  | nil =>
    intro _ hm
    cases hm
  | cons a rest ih =>
    intro hnd hm
    rw [List.map_cons, List.nodup_cons] at hnd
    rcases List.mem_cons.mp hm with heq | hmem
    · subst heq
      have hrest : rest.filter (fun s => s.name == m.name) = [] := by
        rw [List.filter_eq_nil_iff]
        intro s hs hb
        have hsn : s.name = m.name := by simpa using hb
        exact hnd.1 (hsn ▸ List.mem_map_of_mem Service.name hs)
      simp [List.filter_cons, hrest]
    · have hne : a.name ≠ m.name := by
        intro he
        exact hnd.1 (he ▸ List.mem_map_of_mem Service.name hmem)
      have ih2 := ih hnd.2 hmem
      simp [List.filter_cons, hne, ih2]

/-- C6 counterexample: when the static configuration itself contains two
descriptors with the same name, the merged registry keeps both, so it
does not contain exactly one descriptor with the shared name and its
names are not unique. -/
theorem registry_merge_cx :
    ((get_all_services [svcStaticA, svcStaticB] {} [svcDiscovered]).filter
       (fun s => s.name == "dup")).length = 2 ∧
    ¬ ((get_all_services [svcStaticA, svcStaticB] {} [svcDiscovered]).map
         Service.name).Nodup := by decide

/-- C6 amended: provided the statically configured names are pairwise
distinct, the merged registry has pairwise distinct names, and for every
static descriptor — in particular one whose name an auto-discovered
candidate shares — the registry contains exactly that descriptor under
its name, field for field. -/
theorem registry_merge_static_wins (manual : List Service) (settings : Settings)
    (candidates : List Service)
    (hnd : (manual.map Service.name).Nodup) :
    ((get_all_services manual settings candidates).map Service.name).Nodup ∧
    ∀ m ∈ manual,
      (get_all_services manual settings candidates).filter
        (fun s => s.name == m.name) = [m] := by
  by_cases had : settings.auto_discovery = true
  · have hdnd := dedupByName_nodup candidates []
    constructor
    · rw [get_all_services]
      simp only [had, if_true, List.map_append]
      rw [List.nodup_append]
      refine ⟨hnd, ?_, ?_⟩
      · exact hdnd.1.sublist
          (List.Sublist.map Service.name (List.filter_sublist _))
      · intro n hn1 hn2
        obtain ⟨d, hd, hdn⟩ := List.mem_map.mp hn2
        have := (List.mem_filter.mp hd).2
        simp only [decide_eq_true_eq] at this
        exact this (hdn ▸ hn1)
    · intro m hm
      rw [get_all_services]
      simp only [had, if_true, List.filter_append]
      have h1 : manual.filter (fun s => s.name == m.name) = [m] :=
        filter_name_of_nodup m manual hnd hm
      have h2 : ((discover_containers candidates).filter
          (fun d => decide (d.name ∉ manual.map Service.name))).filter
            (fun s => s.name == m.name) = [] := by
        rw [List.filter_eq_nil_iff]
        intro s hs hb
        have hsn : s.name = m.name := by simpa using hb
        have := (List.mem_filter.mp hs).2
        simp only [decide_eq_true_eq] at this
        exact this (hsn ▸ List.mem_map_of_mem Service.name hm)
      rw [h1, h2, List.append_nil]
  · rw [get_all_services]
    simp only [had, if_false]
    exact ⟨by simpa using hnd,
      fun m hm => by simpa using filter_name_of_nodup m manual hnd hm⟩

/-- Witness for the amended C6: one static and one discovered descriptor
share the name dup; the merge keeps exactly the static one. -/
theorem registry_merge_static_wins_witness :
    ((get_all_services [svcStaticA] {} [svcDiscovered]).map Service.name).Nodup ∧
    ∀ m ∈ [svcStaticA],
      (get_all_services [svcStaticA] {} [svcDiscovered]).filter
        (fun s => s.name == m.name) = [m] :=
  registry_merge_static_wins [svcStaticA] {} [svcDiscovered] (by decide)

/-- The restart-success flag ignores the clock. -/
theorem restart_succeeds_now (service : Service) (settings : Settings)
    (env : CheckEnv) (t : Nat) :
    restart_succeeds service settings { env with now := t } =
      restart_succeeds service settings env := rfl

/-- C7 counterexample: with auto-restart enabled and a restart command
that reports success while the service stays down, running the same
cycle twice changes the restart counters, so the two persisted records
differ beyond the check timestamp. -/
theorem idempotence_cx :
    eraseCheck (check_service svcRestartable settingsRestart
        (some (check_service svcRestartable settingsRestart none envDownRestartOk).1)
        envDownRestartOk).1 ≠
      eraseCheck (check_service svcRestartable settingsRestart none envDownRestartOk).1 := by
  decide

/-- C7 amended: running the check cycle twice in the same minute with
identical probe results and no environment change yields the same
persisted record except for the check timestamp, provided the second
cycle performs no successful restart (an unhealthy cycle with
auto-restart enabled and a succeeding restart command increments the
counters each time). -/
theorem idempotent_cycle (service : Service) (settings : Settings)
    (prior : Option ServiceState) (env : CheckEnv) (t2 : Nat)
    (hday : dayOf env.now = dayOf t2)
    (hnr : settings.auto_restart = true →
           (probe_service service env).1 = false →
           (restart_service service env.restartEnv).1 = false) :
    eraseCheck (check_service service settings
        (some (check_service service settings prior env).1)
        { env with now := t2 }).1 =
      eraseCheck (check_service service settings prior env).1 := by
  have hpn : probe_service service { env with now := t2 } =
      probe_service service env := rfl
  have hlc : (check_service service settings prior env).1.last_check = some env.now :=
    cs_last_check service settings prior env
  have hdr : daily_reset (check_service service settings prior env).1 t2 =
      (check_service service settings prior env).1 :=
    daily_reset_same_day _ t2 env.now hlc hday
  have hz : (if restart_succeeds service settings env = true then 1 else 0) = 0 := by
    by_cases har : settings.auto_restart = true
    · by_cases hp : (probe_service service env).1 = true
      · simp [restart_succeeds, hp]
      · simp [restart_succeeds, har,
          hnr har (by simpa using hp)]
    · simp [restart_succeeds, har]
  apply serviceState_ext
  · show (check_service service settings
        (some (check_service service settings prior env).1)
        { env with now := t2 }).1.last_status =
      (check_service service settings prior env).1.last_status
    rw [cs_last_status, cs_last_status, hpn]
  · rfl
  · show (check_service service settings
        (some (check_service service settings prior env).1)
        { env with now := t2 }).1.down_since =
      (check_service service settings prior env).1.down_since
    rw [cs_down_since, hpn]
    by_cases hp : (probe_service service env).1 = true
    · rw [cs_down_since]
      simp [hp]
    · have hr1s : (check_service service settings prior env).1.last_status = "down" := by
        rw [cs_last_status]
        simp [hp]
      simp [hp, hr1s]
  · show (check_service service settings
        (some (check_service service settings prior env).1)
        { env with now := t2 }).1.restart_count_today =
      (check_service service settings prior env).1.restart_count_today
    rw [cs_today]
    simp only [Option.getD_some]
    rw [restart_succeeds_now, hz, hdr, Nat.add_zero]
  · show (check_service service settings
        (some (check_service service settings prior env).1)
        { env with now := t2 }).1.restart_count_total =
      (check_service service settings prior env).1.restart_count_total
    rw [cs_total]
    simp only [Option.getD_some]
    rw [restart_succeeds_now, hz, Nat.add_zero]

/-- Witness for the amended C7: with auto-restart disabled, a repeated
down cycle sixty seconds later leaves the record unchanged except for
the check timestamp. -/
theorem idempotent_cycle_witness :
    eraseCheck (check_service svcDocker {}
        (some (check_service svcDocker {} none envDown).1)
        { envDown with now := 100060 }).1 =
      eraseCheck (check_service svcDocker {} none envDown).1 :=
  idempotent_cycle svcDocker {} none envDown 100060 (by decide) (by decide)

end NKFX
